import Mathlib

/-!
Verification of the payout / refund service (src/index.js) against its
natural-language specification.

The embedding is shallow: each route handler is translated into a pure Lean
function over an explicit environment that records the outcome of every
external interaction (Firestore reads/writes, Paystack calls).  Balances and
amounts are modelled as rationals (the JS code manipulates `Number` values;
NaN/float-rounding behaviour is outside the model).  Strings are modelled as
Lean strings; `String.toLowerCase` is modelled by `Char.toLower` on each
character, `String.prototype.includes` by contiguous-sublist containment, and
`split(" ")` by splitting on the space character exactly as V8 does.
-/

namespace Railway

/-- Tests whether `pre` is an initial segment of `l` (the building block of
JS `String.prototype.includes`). -/
def listStartsWith : List Char → List Char → Bool
  | [], _ => true
  | _ :: _, [] => false
  | a :: as, b :: bs => a = b && listStartsWith as bs

/-- JS `hay.includes(needle)` on code points: `listIncludes hay needle` is
true iff `needle` occurs contiguously inside `hay`. -/
def listIncludes (hay needle : List Char) : Bool :=
  match hay with
  | [] => needle.isEmpty
  | _ :: t => listStartsWith needle hay || listIncludes t needle

/-- JS `s.split(" ")`: split on each single space character, keeping empty
pieces (they are removed later by `filter(Boolean)`).  `acc` holds the
current piece reversed. -/
def splitSpAux : List Char → List Char → List (List Char)
  | acc, [] => [acc.reverse]
  | acc, c :: t =>
    if c = ' ' then acc.reverse :: splitSpAux [] t
    else splitSpAux (c :: acc) t

/-- Splitting on arbitrary whitespace (the spec's wording for the verifier);
used only to state the spec-side matching policy for comparison. -/
def splitWsAux : List Char → List Char → List (List Char)
  | acc, [] => [acc.reverse]
  | acc, c :: t =>
    if c.isWhitespace then acc.reverse :: splitWsAux [] t
    else splitWsAux (c :: acc) t

/-- Lower-casing, the model of JS `toLowerCase` (ASCII letters). -/
def lowerCh (cs : List Char) : List Char := cs.map Char.toLower

/-- The non-empty space-separated tokens of the claimed vendor name, after
lower-casing: `vendorName.toLowerCase().split(" ").filter(Boolean)` in the
source. -/
def userWordsOf (vendorName : String) : List (List Char) :=
  (splitSpAux [] (lowerCh vendorName.toList)).filter (fun w => !w.isEmpty)

/-- The mismatch-detection loop of the source (`for (const word of userWords)
{ if (!resolvedLower.includes(word)) { mismatch = true; break; } }`). -/
def mismatchLoop (resolvedLower : List Char) : List (List Char) → Bool
  | [] => false
  | w :: ws =>
    if listIncludes resolvedLower w then mismatchLoop resolvedLower ws
    else true

/-- The identity verifier of src/index.js lines 153–163: lower-case both
names, split the claimed name on spaces, drop empty tokens, and require each
token to occur inside the resolved account name.  Pure and total. -/
def verifyName (vendorName resolvedAccountName : String) : Bool :=
  !(mismatchLoop (lowerCh resolvedAccountName.toList) (userWordsOf vendorName))

/-- Modelled from the spec's wording for §4.1 (claim C5): split the
lower-cased claimed name on WHITESPACE into non-empty tokens and require
every token to occur as a substring of the lower-cased resolved name.  Stated
only to compare with `verifyName`, which splits on the space character. -/
def specMatchC5 (claimed resolved : String) : Bool :=
  ((splitWsAux [] (lowerCh claimed.toList)).filter (fun w => !w.isEmpty)).all
    (fun w => listIncludes (lowerCh resolved.toList) w)

theorem listStartsWith_spec (pre l : List Char) :
    listStartsWith pre l = true ↔ pre <+: l := by
  induction pre generalizing l with
  | nil => simp [listStartsWith]
  | cons a as ih =>
    cases l with
    | nil => simp [listStartsWith]
    | cons b bs =>
      simp [listStartsWith, ih, List.cons_prefix_cons]

theorem listIncludes_spec (hay needle : List Char) :
    listIncludes hay needle = true ↔ needle <:+: hay := by
  induction hay with
  | nil =>
    simp [listIncludes, List.isEmpty_iff, List.infix_nil]
  | cons c t ih =>
    simp only [listIncludes, Bool.or_eq_true, listStartsWith_spec, ih,
      List.infix_cons_iff]

theorem mismatchLoop_eq_false (resolvedLower : List Char)
    (ws : List (List Char)) :
    mismatchLoop resolvedLower ws = false ↔
      ∀ w ∈ ws, listIncludes resolvedLower w = true := by
  induction ws with
  | nil => simp [mismatchLoop]
  | cons w ws ih =>
    by_cases h : listIncludes resolvedLower w = true
    · simp [mismatchLoop, h, ih]
    · simp [mismatchLoop, h]

/-- Claim C5, counterexample: the claim says the verifier accepts exactly
when every non-empty token obtained by splitting the lower-cased claimed name
on WHITESPACE is a substring of the lower-cased resolved name.  The source
splits on the space character only, so a claimed name containing a tab is
kept as one token: for claimed `"x\ty"` and resolved `"x y"` the spec-side
policy matches but the code rejects. -/
theorem whitespace_split_claim_refuted :
    specMatchC5 "x\ty" "x y" = true ∧ verifyName "x\ty" "x y" = false := by
  constructor <;> rfl

/-- Claim C5, amended: the verifier returns true exactly when every non-empty
token obtained by splitting the lower-cased claimed name on the SPACE
character (U+0020) occurs as a contiguous substring of the lower-cased
resolved name.  The verifier is a pure total function (no side effects, never
raises). -/
theorem verifyName_iff_space_tokens_included (c r : String) :
    verifyName c r = true ↔
      ∀ w ∈ userWordsOf c, w <:+: lowerCh r.toList := by
  simp only [verifyName, Bool.not_eq_true', mismatchLoop_eq_false]
  constructor
  · intro h w hw
    exact (listIncludes_spec _ _).mp (h w hw)
  · intro h w hw
    exact (listIncludes_spec _ _).mpr (h w hw)

/-- Claim C6, counterexample: the claim says the verifier returns false for
EVERY claimed name when the resolved name is empty; but a claimed name with
no non-empty tokens (here: the empty string) yields no mismatch, and the
verifier returns true. -/
theorem empty_resolved_empty_claimed_matches :
    verifyName "" "" = true := by
  rfl

/-- Claim C6, amended: when the resolved name is empty, the verifier returns
false for every claimed name that has at least one non-empty space-separated
token; with no tokens it returns true vacuously. -/
theorem empty_resolved_rejected_when_tokens_exist (c : String)
    (h : userWordsOf c ≠ []) : verifyName c "" = false := by
  unfold verifyName
  cases hw : userWordsOf c with
  | nil => exact absurd hw h
  | cons w ws =>
    have hmem : w ∈ userWordsOf c := by
      rw [hw]; exact List.mem_cons_self _ _
    unfold userWordsOf at hmem
    have hwne : w.isEmpty = false := by
      have h2 : (!w.isEmpty) = true := (List.mem_filter.mp hmem).2
      simpa using h2
    have hcond : listIncludes (lowerCh []) w = false := by
      show w.isEmpty = false
      exact hwne
    simp [mismatchLoop, hcond]

/-- Claim C6 witness: a concrete claimed name with one token is rejected
against the empty resolved name. -/
theorem empty_resolved_rejected_when_tokens_exist_witness :
    userWordsOf "john" ≠ [] ∧ verifyName "john" "" = false :=
  ⟨by decide, empty_resolved_rejected_when_tokens_exist "john" (by decide)⟩

/-- An order document in the `orders` collection; `refundtimeSet` records
whether the `refundtime` server timestamp has been written. -/
structure OrderDoc where
  reference : String
  useruid : String
  status : String
  refundtimeSet : Bool
deriving DecidableEq, Repr

/-- A user document in the `users` collection; counters are `Option` so a
missing field (treated as 0 by `data.totalorder || 0`) is representable. -/
structure UserDoc where
  uid : String
  totalorder : Option Int
  ordernumber : Option Int
deriving DecidableEq, Repr

/-- The Firestore state touched by the refund endpoint. -/
structure RefundState where
  orders : List OrderDoc
  users : List UserDoc
deriving DecidableEq, Repr

/-- The orders query `where("reference","==",reference)`. -/
def matchingOrders (orders : List OrderDoc) (r : String) : List OrderDoc :=
  orders.filter (fun o => o.reference == r)

/-- `[...new Set(ordersSnap.docs.map(d => d.data().useruid))]`: the distinct
user ids among the matching orders. -/
def matchedUids (orders : List OrderDoc) (r : String) : List String :=
  ((matchingOrders orders r).map (fun o => o.useruid)).dedup

/-- One counter update: `if ((data.x || 0) > 0) updates.x = increment(-1)`. -/
def decField (t : Option Int) : Option Int :=
  if 0 < t.getD 0 then some (t.getD 0 - 1) else t

/-- The per-user update of the refund transaction: users whose uid is among
the matching orders' distinct uids get each positive counter decremented by
one; everyone else is untouched. -/
def updateUser (uids : List String) (u : UserDoc) : UserDoc :=
  if u.uid ∈ uids then
    { u with totalorder := decField u.totalorder,
             ordernumber := decField u.ordernumber }
  else u

/-- The per-order update of the refund transaction. -/
def markRefunded (r : String) (o : OrderDoc) : OrderDoc :=
  if o.reference == r then { o with status := "refunded", refundtimeSet := true }
  else o

/-- The atomic batch of step 5 of the /refund endpoint (src/index.js lines
350–389): when at least one order matches, mark every matching order refunded
and decrement the counters of each distinct associated user; when none
matches, the `if (!ordersSnap.empty)` guard skips everything. -/
def refundBatch (s : RefundState) (r : String) : RefundState :=
  if matchingOrders s.orders r = [] then s
  else ⟨s.orders.map (markRefunded r),
        s.users.map (updateUser (matchedUids s.orders r))⟩

/-- Response taxonomy of the /refund endpoint. -/
inductive RefundOutcome
  | noToken
  | invalidToken
  | forbidden
  | missingReference
  | providerRejected
  | providerError
  | firestoreError
  | ok
deriving DecidableEq, Repr

/-- Outcomes of the external interactions of the /refund endpoint. -/
structure RefundEnv where
  hasBearer : Bool
  tokenValid : Bool
  email : String
  providerThrows : Bool
  providerOk : Bool
  firestoreFails : Bool
deriving DecidableEq, Repr

/-- What the /refund endpoint returns plus the final Firestore state. -/
structure RefundResult where
  outcome : RefundOutcome
  success : Bool
  status : Nat
  state : RefundState
deriving DecidableEq, Repr

/-- The /refund endpoint (src/index.js lines 298–402): token check, operator
email check, reference presence check, Paystack refund call, then the batch
update; the batch is transactional, so on failure the state is unchanged. -/
def refundEndpoint (reference : Option String) (env : RefundEnv)
    (s : RefundState) : RefundResult :=
  if !env.hasBearer then ⟨.noToken, false, 401, s⟩
  else if !env.tokenValid then ⟨.invalidToken, false, 401, s⟩
  else if env.email ≠ "rombek325@gmail.com" then ⟨.forbidden, false, 403, s⟩
  else
    match reference with
    | none => ⟨.missingReference, false, 400, s⟩
    | some r =>
      if r = "" then ⟨.missingReference, false, 400, s⟩
      else if env.providerThrows then ⟨.providerError, false, 500, s⟩
      else if !env.providerOk then ⟨.providerRejected, false, 400, s⟩
      else if env.firestoreFails then ⟨.firestoreError, false, 500, s⟩
      else ⟨.ok, true, 200, refundBatch s r⟩

theorem decField_getD (t : Option Int) :
    (decField t).getD 0 =
      if 0 < t.getD 0 then t.getD 0 - 1 else t.getD 0 := by
  unfold decField
  split_ifs with h <;> simp

theorem decField_nonneg (t : Option Int) (h : 0 ≤ t.getD 0) :
    0 ≤ (decField t).getD 0 := by
  rw [decField_getD]
  split_ifs with h1 <;> omega

def orderA : OrderDoc := ⟨"r1", "v1", "paid", false⟩

def orderB : OrderDoc := ⟨"r1", "v1", "paid", false⟩

def vendorU : UserDoc := ⟨"v1", some 5, some 5⟩

def stateTwoOrders : RefundState := ⟨[orderA, orderB], [vendorU]⟩

/-- Claim C1, counterexample: a reference matching two orders of the same
vendor with counters 5/5 leaves the counters at 4 after the refund batch —
the code decrements once per DISTINCT vendor, not once per matching order —
whereas the claim (decrement by exactly 2) predicts 3. -/
theorem refund_two_orders_decrement_claim_refuted :
    (refundBatch stateTwoOrders "r1").users = [⟨"v1", some 4, some 4⟩] ∧
    ¬ ((4 : Int) = 5 - 2) := by
  constructor
  · rfl
  · decide

/-- Claim C1, amended: when the reference matches exactly two orders, both
belonging to vendor `u`, the refund batch decrements each of that vendor's
counters by exactly ONE (not two) when the counter is positive, leaves a
counter that is 0, negative or missing unchanged, and never drives a
non-negative counter below zero. -/
theorem refund_distinct_vendor_decrement_once
    (s : RefundState) (r : String) (u : UserDoc) (hu : u ∈ s.users)
    (h2 : (matchingOrders s.orders r).map (fun o => o.useruid) = [u.uid, u.uid]) :
    ∃ u', u' ∈ (refundBatch s r).users ∧ u'.uid = u.uid ∧
      u'.totalorder.getD 0 =
        (if 0 < u.totalorder.getD 0 then u.totalorder.getD 0 - 1
         else u.totalorder.getD 0) ∧
      u'.ordernumber.getD 0 =
        (if 0 < u.ordernumber.getD 0 then u.ordernumber.getD 0 - 1
         else u.ordernumber.getD 0) ∧
      (0 ≤ u.totalorder.getD 0 → 0 ≤ u'.totalorder.getD 0) ∧
      (0 ≤ u.ordernumber.getD 0 → 0 ≤ u'.ordernumber.getD 0) := by
  have hne : matchingOrders s.orders r ≠ [] := by
    intro h0
    rw [h0] at h2
    simp at h2
  have huid : u.uid ∈ matchedUids s.orders r := by
    unfold matchedUids
    rw [List.mem_dedup, h2]
    simp
  refine ⟨updateUser (matchedUids s.orders r) u, ?_, ?_, ?_, ?_, ?_, ?_⟩
  · unfold refundBatch
    rw [if_neg hne]
    exact List.mem_map_of_mem _ hu
  · simp [updateUser, huid]
  · simp [updateUser, huid, decField_getD]
  · simp [updateUser, huid, decField_getD]
  · intro h
    simpa [updateUser, huid] using decField_nonneg u.totalorder h
  · intro h
    simpa [updateUser, huid] using decField_nonneg u.ordernumber h

/-- Claim C1 witness: the amended statement applied to the concrete
two-orders-one-vendor state. -/
theorem refund_distinct_vendor_decrement_once_witness :
    vendorU ∈ stateTwoOrders.users ∧
    (matchingOrders stateTwoOrders.orders "r1").map (fun o => o.useruid) =
      [vendorU.uid, vendorU.uid] ∧
    (∃ u', u' ∈ (refundBatch stateTwoOrders "r1").users ∧ u'.uid = vendorU.uid ∧
      u'.totalorder.getD 0 =
        (if 0 < vendorU.totalorder.getD 0 then vendorU.totalorder.getD 0 - 1
         else vendorU.totalorder.getD 0) ∧
      u'.ordernumber.getD 0 =
        (if 0 < vendorU.ordernumber.getD 0 then vendorU.ordernumber.getD 0 - 1
         else vendorU.ordernumber.getD 0) ∧
      (0 ≤ vendorU.totalorder.getD 0 → 0 ≤ u'.totalorder.getD 0) ∧
      (0 ≤ vendorU.ordernumber.getD 0 → 0 ≤ u'.ordernumber.getD 0)) :=
  ⟨by decide, by decide,
    refund_distinct_vendor_decrement_once stateTwoOrders "r1" vendorU
      (by decide) (by decide)⟩

def refundEnvOk : RefundEnv :=
  ⟨true, true, "rombek325@gmail.com", false, true, false⟩

def stateNoMatch : RefundState := ⟨[orderA], [vendorU]⟩

/-- Claim C10: when the provider refund succeeds but no order matches the
reference (and the local store operations do not fail), the endpoint reports
success (200) and neither order records nor user counters are modified. -/
theorem refund_no_match_reports_success_no_change
    (r : String) (env : RefundEnv) (s : RefundState)
    (hb : env.hasBearer = true) (ht : env.tokenValid = true)
    (he : env.email = "rombek325@gmail.com") (hr : r ≠ "")
    (hpt : env.providerThrows = false) (hpo : env.providerOk = true)
    (hf : env.firestoreFails = false)
    (hm : matchingOrders s.orders r = []) :
    (refundEndpoint (some r) env s).success = true ∧
    (refundEndpoint (some r) env s).status = 200 ∧
    (refundEndpoint (some r) env s).state = s := by
  simp [refundEndpoint, hb, ht, he, hr, hpt, hpo, hf, refundBatch, hm]

/-- Claim C10 witness: concrete zero-match refund request. -/
theorem refund_no_match_reports_success_no_change_witness :
    matchingOrders stateNoMatch.orders "zz" = [] ∧
    ((refundEndpoint (some "zz") refundEnvOk stateNoMatch).success = true ∧
     (refundEndpoint (some "zz") refundEnvOk stateNoMatch).status = 200 ∧
     (refundEndpoint (some "zz") refundEnvOk stateNoMatch).state = stateNoMatch) :=
  ⟨by decide,
    refund_no_match_reports_success_no_change "zz" refundEnvOk stateNoMatch
      rfl rfl rfl (by decide) rfl rfl rfl (by decide)⟩

/-- The /payout request body.  A field is `none` when absent; JS truthiness
makes `some 0` and `some ""` behave like missing fields. -/
structure PayoutRequest where
  amount : Option ℚ
  account_number : Option String
  bank_code : Option String
  vendorName : Option String
deriving DecidableEq, Repr


/-- Outcomes of the external interactions of the /payout endpoint, fixed up
front so the handler becomes a pure function of request and environment.
Whether a compensating increment would itself throw is passed to `payout`
separately (`cf`), since at most one compensation happens per run. -/
structure PayoutEnv where
  keyConfigured : Bool
  userFound : Bool
  balance : ℚ
  resolveFails : Bool
  resolvedAccountName : Option String
  recipientFails : Bool
  recipientCode : Option String
  transferFails : Bool
  auditFails : Bool
deriving DecidableEq, Repr

/-- JS truthiness of an optional string field (only `""` is falsy). -/
def truthyStr : Option String → Bool
  | none => false
  | some s => !(s == "")

/-- JS truthiness of an optional numeric field (only 0 is falsy; NaN is
outside the rational model). -/
def truthyNum : Option ℚ → Bool
  | none => false
  | some a => decide (a ≠ 0)

/-- Terminal states of the payout handler, one per `return` in the source. -/
inductive PayoutOutcome
  | missingFields
  | noKey
  | userNotFound
  | insufficientBalance
  | resolveError
  | noAccountName
  | nameMismatch
  | recipientError
  | noRecipientCode
  | transferError
  | auditError
  | committed
deriving DecidableEq, Repr

/-- Result of one payout execution: the HTTP-visible fields, the final vendor
balance, the chronological list of observable balance values, and whether a
compensating increment was attempted / failed (known only from logs). -/
structure PayoutResult where
  outcome : PayoutOutcome
  success : Bool
  status : Nat
  finalBalance : ℚ
  trace : List ℚ
  compensationAttempted : Bool
  compensationFailed : Bool
deriving DecidableEq, Repr

/-- The fields of a `PayoutResult` that the HTTP caller can see. -/
structure Resp where
  success : Bool
  status : Nat
  outcome : PayoutOutcome
deriving DecidableEq, Repr

def responseOf (r : PayoutResult) : Resp := ⟨r.success, r.status, r.outcome⟩

/-- A post-reserve failure path: `userRef.update({balance: increment(amount)})`
inside its own try/catch, then the original error is returned.  When the
compensating increment itself throws (`cf`), it is only logged
(`console.error`) and the response is built from the original error alone. -/
def compensateAndFail (o : PayoutOutcome) (st : Nat) (cf : Bool) (b0 a : ℚ) :
    PayoutResult :=
  if cf then ⟨o, false, st, b0 - a, [b0, b0 - a], true, true⟩
  else ⟨o, false, st, b0 - a + a, [b0, b0 - a, b0 - a + a], true, false⟩

/-- Stage after a successful transfer (src/index.js lines 272–294): write the
withdrawal audit record; if that write throws, the outer catch returns a 500
failure without compensating; otherwise 200 success.  Either way the balance
stays at `initial − amount`. -/
def afterTransfer (req : PayoutRequest) (env : PayoutEnv) : PayoutResult :=
  if env.auditFails then
    ⟨.auditError, false, 500, env.balance - req.amount.getD 0,
     [env.balance, env.balance - req.amount.getD 0], false, false⟩
  else
    ⟨.committed, true, 200, env.balance - req.amount.getD 0,
     [env.balance, env.balance - req.amount.getD 0], false, false⟩

/-- Stages after the reservation succeeded (src/index.js lines 101–270):
resolve the account, check the name, create the recipient, initiate the
transfer; each failure runs one compensating increment and returns the
corresponding error. -/
def postReserve (req : PayoutRequest) (env : PayoutEnv) (cf : Bool) :
    PayoutResult :=
  if env.resolveFails then
    compensateAndFail .resolveError 400 cf env.balance (req.amount.getD 0)
  else if !(truthyStr env.resolvedAccountName) then
    compensateAndFail .noAccountName 400 cf env.balance (req.amount.getD 0)
  else if !(verifyName (req.vendorName.getD "") (env.resolvedAccountName.getD "")) then
    compensateAndFail .nameMismatch 400 cf env.balance (req.amount.getD 0)
  else if env.recipientFails then
    compensateAndFail .recipientError 400 cf env.balance (req.amount.getD 0)
  else if !(truthyStr env.recipientCode) then
    compensateAndFail .noRecipientCode 400 cf env.balance (req.amount.getD 0)
  else if env.transferFails then
    compensateAndFail .transferError 500 cf env.balance (req.amount.getD 0)
  else afterTransfer req env

/-- The reserve transaction (src/index.js lines 78–98): `balance − amount` is
written only when `currentBalance < withdrawalAmount` is false; otherwise the
transaction throws and nothing changes. -/
def reserveAndRun (req : PayoutRequest) (env : PayoutEnv) (cf : Bool) :
    PayoutResult :=
  if env.balance < req.amount.getD 0 then
    ⟨.insufficientBalance, false, 400, env.balance, [env.balance], false, false⟩
  else postReserve req env cf

/-- The /payout endpoint (src/index.js lines 42–295), composed of the stages
above in the source's order: field validation, configuration check, user
lookup, then reserve and the gateway steps. -/
def payout (req : PayoutRequest) (env : PayoutEnv) (cf : Bool) : PayoutResult :=
  if !(truthyNum req.amount && truthyStr req.account_number &&
       truthyStr req.bank_code && truthyStr req.vendorName) then
    ⟨.missingFields, false, 400, env.balance, [env.balance], false, false⟩
  else if !env.keyConfigured then
    ⟨.noKey, false, 500, env.balance, [env.balance], false, false⟩
  else if !env.userFound then
    ⟨.userNotFound, false, 400, env.balance, [env.balance], false, false⟩
  else reserveAndRun req env cf

/-- The amount sent to the Paystack transfer call, `Number(amount) * 100`
(NGN to kobo).  In the rational model this multiplication is exact; in the
source it is an IEEE-754 double multiplication. -/
def transferAmountKobo (a : ℚ) : ℚ := a * 100

theorem compensateAndFail_outcome (o : PayoutOutcome) (st : Nat) (cf : Bool)
    (b0 a : ℚ) : (compensateAndFail o st cf b0 a).outcome = o := by
  unfold compensateAndFail
  split_ifs <;> rfl

theorem responseOf_compensateAndFail (o : PayoutOutcome) (st : Nat) (cf : Bool)
    (b0 a : ℚ) : responseOf (compensateAndFail o st cf b0 a) = ⟨false, st, o⟩ := by
  unfold compensateAndFail responseOf
  split_ifs <;> rfl

def reqOk : PayoutRequest :=
  ⟨some 5, some "0123456789", some "044", some "john doe"⟩

def reqNeg : PayoutRequest :=
  ⟨some (-5), some "0123456789", some "044", some "john doe"⟩

def envBase : PayoutEnv :=
  ⟨true, true, 10, false, some "john doe", false, some "RCP1", false, false⟩

def envAudit : PayoutEnv := { envBase with auditFails := true }

def envResolveFail : PayoutEnv := { envBase with resolveFails := true }

/-- Claim C2, counterexample: a run in which the transfer succeeds and the
audit-record write throws ends in the outer catch: the caller gets
`success: false` with status 500 (the generic payout failure), not a
successful payout with a warning-class error. -/
theorem audit_failure_reported_successful_refuted :
    (payout reqOk envAudit false).outcome = PayoutOutcome.auditError ∧
    (payout reqOk envAudit false).success = false ∧
    (payout reqOk envAudit false).status = 500 := by
  refine ⟨?_, ?_, ?_⟩ <;> with_unfolding_all decide

theorem afterTransfer_outcome_audit (req : PayoutRequest) (env : PayoutEnv)
    (h : (afterTransfer req env).outcome = PayoutOutcome.auditError) :
    afterTransfer req env =
      ⟨PayoutOutcome.auditError, false, 500,
       env.balance - req.amount.getD 0,
       [env.balance, env.balance - req.amount.getD 0], false, false⟩ := by
  unfold afterTransfer at h ⊢
  split_ifs at h ⊢
  rfl

theorem postReserve_outcome_audit (req : PayoutRequest) (env : PayoutEnv)
    (cf : Bool)
    (h : (postReserve req env cf).outcome = PayoutOutcome.auditError) :
    postReserve req env cf =
      ⟨PayoutOutcome.auditError, false, 500,
       env.balance - req.amount.getD 0,
       [env.balance, env.balance - req.amount.getD 0], false, false⟩ := by
  unfold postReserve at h ⊢
  split_ifs at h ⊢ <;>
    first
      | (rw [compensateAndFail_outcome] at h; exact absurd h (by decide))
      | exact afterTransfer_outcome_audit req env h

theorem reserveAndRun_outcome_audit (req : PayoutRequest) (env : PayoutEnv)
    (cf : Bool)
    (h : (reserveAndRun req env cf).outcome = PayoutOutcome.auditError) :
    reserveAndRun req env cf =
      ⟨PayoutOutcome.auditError, false, 500,
       env.balance - req.amount.getD 0,
       [env.balance, env.balance - req.amount.getD 0], false, false⟩ := by
  unfold reserveAndRun at h ⊢
  split_ifs at h ⊢
  exact postReserve_outcome_audit req env cf h

/-- Claim C2, amended: when the transfer succeeds and the audit-record write
fails, the payout is reported as FAILED: success false with status 500 (the
generic payout-failure error of the outer catch, not a distinct warning);
the transfer is indeed not rolled back — the final balance stays debited at
`initial − amount` and no compensating increment is attempted. -/
theorem audit_failure_response_and_balance
    (req : PayoutRequest) (env : PayoutEnv) (cf : Bool)
    (h : (payout req env cf).outcome = PayoutOutcome.auditError) :
    payout req env cf =
      ⟨PayoutOutcome.auditError, false, 500,
       env.balance - req.amount.getD 0,
       [env.balance, env.balance - req.amount.getD 0], false, false⟩ := by
  unfold payout at h ⊢
  split_ifs at h ⊢
  exact reserveAndRun_outcome_audit req env cf h

/-- Claim C2 witness: the amended statement at the concrete audit-failure
run. -/
theorem audit_failure_response_and_balance_witness :
    (payout reqOk envAudit false).outcome = PayoutOutcome.auditError ∧
    payout reqOk envAudit false =
      ⟨PayoutOutcome.auditError, false, 500,
       envAudit.balance - reqOk.amount.getD 0,
       [envAudit.balance, envAudit.balance - reqOk.amount.getD 0],
       false, false⟩ :=
  ⟨by with_unfolding_all decide,
    audit_failure_response_and_balance reqOk envAudit false
      (by with_unfolding_all decide)⟩

/-- Claim C3, counterexample: two runs that differ only in whether the
compensating increment after a resolution failure succeeded produce the SAME
caller-visible response, although the final balances differ (10 when funds
were returned, 5 when they were not).  The caller therefore does not see a
distinct compensation-failed condition layered on the original error; the
failure is only logged. -/
theorem compensation_failure_visibility_refuted :
    responseOf (payout reqOk envResolveFail true) =
      responseOf (payout reqOk envResolveFail false) ∧
    (payout reqOk envResolveFail true).outcome =
      PayoutOutcome.resolveError ∧
    (payout reqOk envResolveFail true).finalBalance = 5 ∧
    (payout reqOk envResolveFail false).finalBalance = 10 := by
  refine ⟨?_, ?_, ?_, ?_⟩ <;> with_unfolding_all decide

theorem postReserve_response_ignores (req : PayoutRequest) (env : PayoutEnv)
    (c1 c2 : Bool) :
    responseOf (postReserve req env c1) = responseOf (postReserve req env c2) := by
  unfold postReserve
  split_ifs <;> simp [responseOf_compensateAndFail]

/-- Claim C3, amended: the caller-visible response (success flag, status,
error taxonomy) is entirely independent of whether the compensating increment
failed; compensation failures are only logged, never layered onto the
response, so the caller cannot learn that funds were not returned. -/
theorem response_ignores_compensation_failure (req : PayoutRequest)
    (env : PayoutEnv) (c1 c2 : Bool) :
    responseOf (payout req env c1) = responseOf (payout req env c2) := by
  unfold payout reserveAndRun
  split_ifs <;>
    first
      | rfl
      | exact postReserve_response_ignores req env c1 c2

/-- Claim C4: the validation `if (!amount || ...)` only rejects FALSY fields;
a strictly negative amount (here −5) passes validation, and the reserve
transaction `balance − amount` then INCREASES the balance (10 becomes 15),
the saga committing normally.  The spec's `amount > 0` check is absent from
the code. -/
theorem negative_amount_passes_validation_and_credits :
    (payout reqNeg envBase false).outcome = PayoutOutcome.committed ∧
    (payout reqNeg envBase false).outcome ≠ PayoutOutcome.missingFields ∧
    (payout reqNeg envBase false).finalBalance = 15 ∧
    envBase.balance = 10 := by
  refine ⟨?_, ?_, ?_, ?_⟩ <;> with_unfolding_all decide

theorem compensateAndFail_trace_nonneg (o : PayoutOutcome) (st : Nat)
    (cf : Bool) (b0 a : ℚ) (h0 : 0 ≤ b0) (ha : a ≤ b0) :
    ∀ x ∈ (compensateAndFail o st cf b0 a).trace, 0 ≤ x := by
  unfold compensateAndFail
  split_ifs <;> intro x hx <;>
    simp only [List.mem_cons, List.not_mem_nil, or_false] at hx <;>
    first
      | ((rcases hx with rfl | rfl | rfl) <;> linarith)
      | ((rcases hx with rfl | rfl) <;> linarith)

theorem afterTransfer_trace_nonneg (req : PayoutRequest) (env : PayoutEnv)
    (h0 : 0 ≤ env.balance) (ha : req.amount.getD 0 ≤ env.balance) :
    ∀ x ∈ (afterTransfer req env).trace, 0 ≤ x := by
  unfold afterTransfer
  split_ifs <;> intro x hx <;>
    simp only [List.mem_cons, List.not_mem_nil, or_false] at hx <;>
    ((rcases hx with rfl | rfl) <;> linarith)

theorem postReserve_trace_nonneg (req : PayoutRequest) (env : PayoutEnv)
    (cf : Bool) (h0 : 0 ≤ env.balance)
    (ha : req.amount.getD 0 ≤ env.balance) :
    ∀ x ∈ (postReserve req env cf).trace, 0 ≤ x := by
  unfold postReserve
  split_ifs <;>
    first
      | exact compensateAndFail_trace_nonneg _ _ _ _ _ h0 ha
      | exact afterTransfer_trace_nonneg req env h0 ha

theorem reserveAndRun_trace_nonneg (req : PayoutRequest) (env : PayoutEnv)
    (cf : Bool) (h0 : 0 ≤ env.balance) :
    ∀ x ∈ (reserveAndRun req env cf).trace, 0 ≤ x := by
  unfold reserveAndRun
  split_ifs with hlt
  · intro x hx
    simp only [List.mem_cons, List.not_mem_nil, or_false] at hx
    rcases hx with rfl
    exact h0
  · exact postReserve_trace_nonneg req env cf h0 (by linarith)

/-- Claim C7: starting from a non-negative balance, every observable balance
value of a payout execution is non-negative; when the balance is smaller than
the requested amount the balance is never touched; and (when the request is
well-formed and key/user exist) such a run fails with the
insufficient-balance error. -/
theorem payout_balance_nonneg (req : PayoutRequest) (env : PayoutEnv)
    (cf : Bool) (h : 0 ≤ env.balance) :
    (∀ x ∈ (payout req env cf).trace, 0 ≤ x) ∧
    (env.balance < req.amount.getD 0 →
      (payout req env cf).trace = [env.balance] ∧
      (payout req env cf).finalBalance = env.balance) ∧
    ((truthyNum req.amount && truthyStr req.account_number &&
      truthyStr req.bank_code && truthyStr req.vendorName) = true →
      env.keyConfigured = true → env.userFound = true →
      env.balance < req.amount.getD 0 →
      (payout req env cf).outcome = PayoutOutcome.insufficientBalance) := by
  refine ⟨?_, ?_, ?_⟩
  · unfold payout
    split_ifs <;>
      first
        | (intro x hx
           simp only [List.mem_cons, List.not_mem_nil, or_false] at hx
           rcases hx with rfl
           exact h)
        | exact reserveAndRun_trace_nonneg req env cf h
  · intro hlt
    unfold payout reserveAndRun
    split_ifs <;> first | exact ⟨rfl, rfl⟩ | (exfalso; linarith)
  · intro hv hk hu hlt
    unfold payout reserveAndRun
    split_ifs <;> simp_all

/-- Claim C7 witness: the invariant at a concrete request and environment. -/
theorem payout_balance_nonneg_witness :
    (0 : ℚ) ≤ envBase.balance ∧
    ((∀ x ∈ (payout reqOk envBase false).trace, 0 ≤ x) ∧
     (envBase.balance < reqOk.amount.getD 0 →
       (payout reqOk envBase false).trace = [envBase.balance] ∧
       (payout reqOk envBase false).finalBalance = envBase.balance) ∧
     ((truthyNum reqOk.amount && truthyStr reqOk.account_number &&
       truthyStr reqOk.bank_code && truthyStr reqOk.vendorName) = true →
       envBase.keyConfigured = true → envBase.userFound = true →
       envBase.balance < reqOk.amount.getD 0 →
       (payout reqOk envBase false).outcome =
         PayoutOutcome.insufficientBalance)) :=
  ⟨by decide, payout_balance_nonneg reqOk envBase false (by decide)⟩

/-- Claim C8, counterexample: in the audit-write-failure run the final
balance equals initial − amount (10 − 5) yet the saga did not reach
`Committed` (no audit entry was written), refuting the claimed equivalence
"final = initial − amount iff Committed". -/
theorem committed_iff_balance_delta_refuted :
    reqOk.amount = some 5 ∧
    envAudit.balance = 10 ∧
    (payout reqOk envAudit false).finalBalance = 10 - 5 ∧
    (payout reqOk envAudit false).outcome ≠ PayoutOutcome.committed := by
  refine ⟨?_, ?_, ?_, ?_⟩ <;> with_unfolding_all decide

theorem compensateAndFail_char (o : PayoutOutcome) (st : Nat) (cf : Bool)
    (b0 a : ℚ) (ha0 : a ≠ 0)
    (ho1 : o ≠ PayoutOutcome.committed)
    (ho2 : o ≠ PayoutOutcome.auditError) :
    ((compensateAndFail o st cf b0 a).finalBalance = b0 - a ↔
      ((compensateAndFail o st cf b0 a).outcome = PayoutOutcome.committed ∨
       (compensateAndFail o st cf b0 a).outcome = PayoutOutcome.auditError ∨
       (compensateAndFail o st cf b0 a).compensationFailed = true)) := by
  unfold compensateAndFail
  split_ifs with hcf
  · simp
  · simp [ho1, ho2]
    intro hh
    exact ha0 (by linarith)

theorem afterTransfer_char (req : PayoutRequest) (env : PayoutEnv) (a : ℚ)
    (ha : req.amount = some a) :
    ((afterTransfer req env).finalBalance = env.balance - a ↔
      ((afterTransfer req env).outcome = PayoutOutcome.committed ∨
       (afterTransfer req env).outcome = PayoutOutcome.auditError ∨
       (afterTransfer req env).compensationFailed = true)) := by
  unfold afterTransfer
  split_ifs <;> simp [ha]

theorem postReserve_char (req : PayoutRequest) (env : PayoutEnv) (cf : Bool)
    (a : ℚ) (ha : req.amount = some a) (ha0 : a ≠ 0) :
    ((postReserve req env cf).finalBalance = env.balance - a ↔
      ((postReserve req env cf).outcome = PayoutOutcome.committed ∨
       (postReserve req env cf).outcome = PayoutOutcome.auditError ∨
       (postReserve req env cf).compensationFailed = true)) := by
  unfold postReserve
  simp only [ha, Option.getD_some]
  split_ifs <;>
    first
      | exact compensateAndFail_char _ _ _ _ _ ha0 (by decide) (by decide)
      | exact afterTransfer_char req env a ha

theorem reserveAndRun_char (req : PayoutRequest) (env : PayoutEnv) (cf : Bool)
    (a : ℚ) (ha : req.amount = some a) (ha0 : a ≠ 0) :
    ((reserveAndRun req env cf).finalBalance = env.balance - a ↔
      ((reserveAndRun req env cf).outcome = PayoutOutcome.committed ∨
       (reserveAndRun req env cf).outcome = PayoutOutcome.auditError ∨
       (reserveAndRun req env cf).compensationFailed = true)) := by
  unfold reserveAndRun
  split_ifs
  · simp
    intro hh
    exact ha0 (by linarith)
  · exact postReserve_char req env cf a ha ha0

theorem compensateAndFail_restore (o : PayoutOutcome) (st : Nat) (cf : Bool)
    (b0 a : ℚ)
    (h : ¬((compensateAndFail o st cf b0 a).outcome = PayoutOutcome.committed ∨
           (compensateAndFail o st cf b0 a).outcome = PayoutOutcome.auditError ∨
           (compensateAndFail o st cf b0 a).compensationFailed = true)) :
    (compensateAndFail o st cf b0 a).finalBalance = b0 := by
  unfold compensateAndFail at h ⊢
  split_ifs at h ⊢
  · exact absurd (Or.inr (Or.inr rfl)) h
  · show b0 - a + a = b0
    ring

theorem afterTransfer_restore (req : PayoutRequest) (env : PayoutEnv)
    (h : ¬((afterTransfer req env).outcome = PayoutOutcome.committed ∨
           (afterTransfer req env).outcome = PayoutOutcome.auditError ∨
           (afterTransfer req env).compensationFailed = true)) :
    (afterTransfer req env).finalBalance = env.balance := by
  exfalso
  unfold afterTransfer at h
  split_ifs at h
  · exact h (Or.inr (Or.inl rfl))
  · exact h (Or.inl rfl)

theorem postReserve_restore (req : PayoutRequest) (env : PayoutEnv) (cf : Bool)
    (h : ¬((postReserve req env cf).outcome = PayoutOutcome.committed ∨
           (postReserve req env cf).outcome = PayoutOutcome.auditError ∨
           (postReserve req env cf).compensationFailed = true)) :
    (postReserve req env cf).finalBalance = env.balance := by
  unfold postReserve at h ⊢
  split_ifs at h ⊢ <;>
    first
      | exact compensateAndFail_restore _ _ _ _ _ h
      | exact afterTransfer_restore req env h

theorem reserveAndRun_restore (req : PayoutRequest) (env : PayoutEnv)
    (cf : Bool)
    (h : ¬((reserveAndRun req env cf).outcome = PayoutOutcome.committed ∨
           (reserveAndRun req env cf).outcome = PayoutOutcome.auditError ∨
           (reserveAndRun req env cf).compensationFailed = true)) :
    (reserveAndRun req env cf).finalBalance = env.balance := by
  unfold reserveAndRun at h ⊢
  split_ifs at h ⊢
  · rfl
  · exact postReserve_restore req env cf h

/-- Claim C8, amended: for a request with a non-zero amount, the final
balance equals initial − amount exactly when the saga committed, OR the
transfer succeeded but the audit write failed, OR a compensating increment
itself failed; and in every other outcome the final balance equals the
initial balance (compensation fully reverses the reservation). -/
theorem balance_delta_characterization (req : PayoutRequest) (env : PayoutEnv)
    (cf : Bool) (a : ℚ) (ha : req.amount = some a) (ha0 : a ≠ 0) :
    ((payout req env cf).finalBalance = env.balance - a ↔
      ((payout req env cf).outcome = PayoutOutcome.committed ∨
       (payout req env cf).outcome = PayoutOutcome.auditError ∨
       (payout req env cf).compensationFailed = true)) ∧
    (¬((payout req env cf).outcome = PayoutOutcome.committed ∨
       (payout req env cf).outcome = PayoutOutcome.auditError ∨
       (payout req env cf).compensationFailed = true) →
      (payout req env cf).finalBalance = env.balance) := by
  constructor
  · unfold payout
    split_ifs <;>
      first
        | (simp
           intro hh
           exact ha0 (by linarith))
        | exact reserveAndRun_char req env cf a ha ha0
  · intro h
    unfold payout at h ⊢
    split_ifs at h ⊢ <;>
      first
        | rfl
        | exact reserveAndRun_restore req env cf h

/-- Claim C8 witness: the characterization at the committed run. -/
theorem balance_delta_characterization_witness :
    reqOk.amount = some 5 ∧ (5 : ℚ) ≠ 0 ∧
    (((payout reqOk envBase false).finalBalance = envBase.balance - 5 ↔
      ((payout reqOk envBase false).outcome = PayoutOutcome.committed ∨
       (payout reqOk envBase false).outcome = PayoutOutcome.auditError ∨
       (payout reqOk envBase false).compensationFailed = true)) ∧
     (¬((payout reqOk envBase false).outcome = PayoutOutcome.committed ∨
        (payout reqOk envBase false).outcome = PayoutOutcome.auditError ∨
        (payout reqOk envBase false).compensationFailed = true) →
       (payout reqOk envBase false).finalBalance = envBase.balance)) :=
  ⟨rfl, by decide,
    balance_delta_characterization reqOk envBase false 5 rfl (by decide)⟩

end Railway
